import Mathlib

/-!
# Verification of the DINX chat-relay backend

Shallow embedding of `src/server.js` (and the unnamed variant
`src/unnamed/part_000`): a small backend that accepts a chat request,
optionally augments it with web-search context (Tavily), forwards it to an
LLM completion provider, and returns the reply.

JavaScript strings are modelled as Lean `String`; absent/`undefined` values
as `Option`; JavaScript truthiness of an optional string (`undefined`,
`null` and `""` are falsy) as `jsTruthy`.  The two outbound HTTP calls are
modelled by outcome parameters (what the network would answer) together
with an ordered event trace of the calls the handler issues, so sequencing
and "no outbound call" properties are statable.  The handler body is a
straight-line `async` function, so the trace order is the temporal order of
the calls: the search `await` completes before the completion call starts.
-/

/-- `String.includes` of JavaScript at the character-list level:
`isPrefixChars sub hay` is true when `sub` is a leading segment of `hay`. -/
def isPrefixChars : List Char → List Char → Bool
  | [], _ => true
  | _ :: _, [] => false
  | a :: as, b :: bs => a == b && isPrefixChars as bs

/-- Auxiliary scan for substring containment: does `sub` occur at some
position of `hay`? -/
def containsAux (sub : List Char) : List Char → Bool
  | [] => isPrefixChars sub []
  | c :: rest => isPrefixChars sub (c :: rest) || containsAux sub rest

/-- JavaScript `s.includes(t)`: `t` occurs as a contiguous substring of `s`. -/
def strContains (s t : String) : Bool :=
  containsAux t.data s.data

/-- JavaScript `s.toLowerCase()` restricted to the ASCII range used by the
trigger words (each character lowered independently). -/
def lowerStr (s : String) : String :=
  ⟨s.data.map Char.toLower⟩

/-- JavaScript truthiness of an optional string: `undefined` and `""` are
falsy. -/
def jsTruthy : Option String → Bool
  | none => false
  | some s => !(s == "")

/-- The fixed trigger list of `shouldUseWeb` (`server.js` lines 42–57). -/
def triggers : List String :=
  [ "latest", "today", "current", "news", "right now", "price of", "stock",
    "weather", "live", "update", "who is", "what is", "search",
    "on the internet" ]

/-- `shouldUseWeb` (`server.js` lines 38–60): falsy input (absent or empty
message) yields `false`; otherwise the lower-cased message is tested for
containment of any trigger substring. -/
def shouldUseWeb : Option String → Bool
  | none => false
  | some message =>
    if message = "" then false
    else triggers.any (fun word => strContains (lowerStr message) word)

/-- One item of the Tavily `results` array: `{ title, url, content }`. -/
structure SearchResult where
  title : String
  url : String
  content : String
deriving DecidableEq, Repr

/-- `data.answer ? ("Answer: " + data.answer + "\n\n") : ""`
(`server.js` line 93); an absent or empty answer is falsy. -/
def answerLine : Option String → String
  | none => ""
  | some a => if a = "" then "" else "Answer: " ++ a ++ "\n\n"

/-- One rendered result: `• ${title} — ${url}\n${content}`
(`server.js` line 97). -/
def renderResult (r : SearchResult) : String :=
  "• " ++ r.title ++ " — " ++ r.url ++ "\n" ++ r.content

/-- The formatting of a successful Tavily response (`server.js` lines
93–100): optional answer line, then the first at most 3 results rendered
and joined by blank lines.  `results` may be absent (`data.results || []`). -/
def searchFormat (ans : Option String) (results : Option (List SearchResult)) :
    String :=
  answerLine ans ++
    String.intercalate "\n\n" (((results.getD []).take 3).map renderResult)

/-- What the Tavily endpoint does when actually called. -/
inductive SearchOutcome where
  /-- `!response.ok`: non-success HTTP status with an error body. -/
  | httpError (body : String)
  /-- transport-level exception (network failure, malformed JSON). -/
  | exn
  /-- success, with the optional `answer` and `results` fields. -/
  | ok (ans : Option String) (results : Option (List SearchResult))
deriving DecidableEq

/-- One entry of the completion request's `messages` array. -/
structure PromptMessage where
  role : String
  content : String
deriving DecidableEq, Repr

/-- An outbound call issued by the server, in program order. -/
inductive Event where
  /-- one `POST` to the Tavily endpoint with the given query. -/
  | searchCall (query : String)
  /-- one `POST` to the completion endpoint with model and message list. -/
  | llmCall (model : String) (messages : List PromptMessage)
deriving DecidableEq

/-- `searchWebWithTavily` (`server.js` lines 65–105), as a pure function of
the configured key and the network outcome.  Returns the context string the
function returns to its caller, paired with the outbound calls it makes.
The JavaScript function catches every exception and returns a string on
every path (the Lean function being total models "never throws"). -/
def searchWebWithTavily (key : Option String) (query : String)
    (outcome : SearchOutcome) : String × List Event :=
  if !jsTruthy key then ("", [])
  else
    (match outcome with
      | .httpError _ => ""
      | .exn => ""
      | .ok ans results => searchFormat ans results,
     [Event.searchCall query])

/-- `data.choices[i].message` of the completion response; `content` may be
absent. -/
structure ChoiceMsg where
  content : Option String
deriving DecidableEq

/-- One entry of `data.choices`; the `message` field may be absent. -/
structure Choice where
  message : Option ChoiceMsg
deriving DecidableEq

/-- The optional chaining `data.choices?.[0]?.message?.content`
(`server.js` line 174): `none` as soon as any step is absent. -/
def firstChoiceContent (choices : Option (List Choice)) : Option String :=
  match (choices.getD []).head? with
  | none => none
  | some c =>
    match c.message with
    | none => none
    | some m => m.content

/-- `data.choices?.[0]?.message?.content || 'No reply from model.'`
(`server.js` line 174): the placeholder replaces an absent or falsy
(empty) content. -/
def extractReply (choices : Option (List Choice)) : String :=
  match firstChoiceContent choices with
  | none => "No reply from model."
  | some s => if s = "" then "No reply from model." else s

/-- The default system prompt (`server.js` lines 133–135). -/
def defaultSystemPrompt : String :=
  "You are DINX, a precise, helpful design assistant. Use web context if provided, and say when information may be out of date."

/-- The fixed preamble of the search-context system message
(`server.js` lines 141–143). -/
def webContextNote : String :=
  "Here is information from a live web search. Use it carefully in your answer:\n\n"

/-- Message-list assembly (`server.js` lines 129–147): leading system
message (`system || default`, so an empty override falls back to the
default), optional search-context system message when `webInfo` is truthy,
trailing user message. -/
def buildMessages (system : Option String) (webInfo : String)
    (message : String) : List PromptMessage :=
  [⟨"system", if jsTruthy system then system.getD "" else defaultSystemPrompt⟩]
    ++ (if webInfo = "" then []
        else [⟨"system", webContextNote ++ webInfo⟩])
    ++ [⟨"user", message⟩]

/-- The body of `POST /api/chat` (`server.js` line 112): `model`, `system`
and `message` may each be absent. -/
structure ChatRequest where
  model : Option String
  system : Option String
  message : Option String
deriving DecidableEq

/-- The environment-provided secrets (`server.js` lines 17, 20). -/
structure Env where
  groqKey : Option String
  tavilyKey : Option String
deriving DecidableEq

/-- What the completion endpoint does when actually called. -/
inductive LLMOutcome where
  /-- `!groqRes.ok`: non-success HTTP status with its raw error text. -/
  | httpError (errorText : String)
  /-- success, with the optional `choices` array of the JSON body. -/
  | ok (choices : Option (List Choice))
deriving DecidableEq

/-- The HTTP response the endpoint sends: status code and the JSON body
fields it may carry. -/
structure HttpResponse where
  status : Nat
  error : Option String
  details : Option String
  reply : Option String
deriving DecidableEq

/-- The `POST /api/chat` handler (`server.js` lines 110–180) as a pure
function of the environment, the request body and the two network
outcomes.  Returns the HTTP response paired with the ordered trace of
outbound calls.  Mirrors the source order: missing-key check, input
validation, optional search (gated by `shouldUseWeb`, absorbed on
failure), message assembly, completion call, reply extraction. -/
def handleChat (env : Env) (req : ChatRequest) (sOut : SearchOutcome)
    (lOut : LLMOutcome) : HttpResponse × List Event :=
  if !jsTruthy env.groqKey then
    ({ status := 500, error := some "GROQ_API_KEY not set on server.",
       details := none, reply := none }, [])
  else if !jsTruthy req.model || !jsTruthy req.message then
    ({ status := 400, error := some "model and message are required.",
       details := none, reply := none }, [])
  else
    let message := req.message.getD ""
    let model := req.model.getD ""
    let sres :=
      if shouldUseWeb req.message then
        searchWebWithTavily env.tavilyKey message sOut
      else ("", [])
    let messages := buildMessages req.system sres.1 message
    let events := sres.2 ++ [Event.llmCall model messages]
    match lOut with
    | .httpError errorText =>
      ({ status := 500, error := some "Groq API error",
         details := some errorText, reply := none }, events)
    | .ok choices =>
      ({ status := 200, error := none, details := none,
         reply := some (extractReply choices) }, events)

/-!
## The unnamed variant `src/unnamed/part_000`

The DeepSeek variant of the server.  Its `shouldUseWeb` (lines 38–60) and
the result formatting of its `searchWebWithTavily` (lines 91–100) are
embedded separately here, to be compared with the `server.js` versions.
-/

namespace Variant

/-- The trigger list of `part_000` lines 42–57. -/
def triggers : List String :=
  [ "latest", "today", "current", "news", "right now", "price of", "stock",
    "weather", "live", "update", "who is", "what is", "search",
    "on the internet" ]

/-- `shouldUseWeb` of `part_000` lines 38–60. -/
def shouldUseWeb : Option String → Bool
  | none => false
  | some message =>
    if message = "" then false
    else Variant.triggers.any (fun word => strContains (lowerStr message) word)

/-- `part_000` line 93. -/
def answerLine : Option String → String
  | none => ""
  | some a => if a = "" then "" else "Answer: " ++ a ++ "\n\n"

/-- `part_000` line 97. -/
def renderResult (r : SearchResult) : String :=
  "• " ++ r.title ++ " — " ++ r.url ++ "\n" ++ r.content

/-- The result formatting of `part_000` lines 93–100. -/
def searchFormat (ans : Option String) (results : Option (List SearchResult)) :
    String :=
  Variant.answerLine ans ++
    String.intercalate "\n\n"
      (((results.getD []).take 3).map Variant.renderResult)

end Variant

/-!
## Theorems
-/

-- Sanity checks on concrete inputs.
example : shouldUseWeb (some "What is the WEATHER today?") = true := by decide
example : shouldUseWeb (some "hello there") = false := by decide
example : shouldUseWeb (some "") = false := by decide
example : shouldUseWeb none = false := by decide

/-- `isPrefixChars` agrees with `List.IsPrefix`. -/
theorem isPrefixChars_iff : ∀ sub hay : List Char,
    isPrefixChars sub hay = true ↔ sub <+: hay
  | [], hay => by simp [isPrefixChars]
  | a :: as, [] => by simp [isPrefixChars]
  | a :: as, b :: bs => by
    simp [isPrefixChars, List.cons_prefix_cons, isPrefixChars_iff as bs]

/-- `strContains` agrees with `List.IsInfix` on the character lists. -/
theorem strContains_iff (s t : String) :
    strContains s t = true ↔ t.data <:+: s.data := by
  unfold strContains
  induction s.data with
  | nil => simp [containsAux, isPrefixChars_iff, List.prefix_nil,
      List.infix_nil]
  | cons c rest ih =>
    simp [containsAux, isPrefixChars_iff, ih, List.infix_cons_iff]

/-- The early return for an empty message coincides with running the
trigger scan (no trigger is the empty string), so `shouldUseWeb` on a
present message is exactly the trigger scan. -/
theorem shouldUseWeb_eq_any (m : String) :
    shouldUseWeb (some m) =
      triggers.any (fun word => strContains (lowerStr m) word) := by
  by_cases h : m = ""
  · subst h; decide
  · simp [shouldUseWeb, h]

/-- A message that contains a trigger (after lower-casing) is non-empty. -/
theorem ne_empty_of_trigger {m t : String} (ht : t ∈ triggers)
    (h : strContains (lowerStr m) t = true) : m ≠ "" := by
  intro hm
  subst hm
  revert h
  fin_cases ht <;> decide

/-- **C1.** A message containing at least one trigger substring of the
fixed list (after lower-casing, anywhere in the string) makes
`shouldUseWeb` return `true`; a message containing none makes it return
`false`; empty or absent input returns `false`. -/
theorem shouldUseWeb_trigger_spec :
    (∀ m : String, shouldUseWeb (some m) = true ↔
      ∃ t ∈ triggers, strContains (lowerStr m) t = true)
    ∧ shouldUseWeb (some "") = false
    ∧ shouldUseWeb none = false := by
  refine ⟨fun m => ?_, by decide, rfl⟩
  rw [shouldUseWeb_eq_any]
  simp [List.any_eq_true]

/-- **C4.** The Tavily context formatting: on the spec's concrete response
the output is exactly the expected string, and in general the output is
the optional `Answer:` line followed by the first at most 3 results, each
rendered as `• title — url\ncontent`, joined by blank lines. -/
theorem searchFormat_spec :
    searchFormat (some "A")
        (some [⟨"T1", "U1", "C1"⟩, ⟨"T2", "U2", "C2"⟩]) =
      "Answer: A\n\n• T1 — U1\nC1\n\n• T2 — U2\nC2"
    ∧ ∀ ans rs, searchFormat ans rs =
        answerLine ans ++ String.intercalate "\n\n"
          (((rs.getD []).take 3).map renderResult)
        ∧ ((rs.getD []).take 3).length ≤ 3
        ∧ (rs.getD []).take 3 <+: rs.getD [] := by
  refine ⟨by decide, fun ans rs => ⟨rfl, ?_, List.take_prefix 3 _⟩⟩
  simp

/-- **C5.** The search client never raises (it is a total function of the
network outcome): with no credential configured it returns `""` with an
empty outbound-call trace; on a non-success provider response it returns
`""`; on a transport-level exception it returns `""`. -/
theorem search_failure_spec :
    (∀ q out, searchWebWithTavily none q out = ("", []))
    ∧ (∀ q out, searchWebWithTavily (some "") q out = ("", []))
    ∧ (∀ key q body, (searchWebWithTavily key q (.httpError body)).1 = "")
    ∧ (∀ key q, (searchWebWithTavily key q .exn).1 = "") := by
  refine ⟨fun q out => rfl, fun q out => rfl, fun key q body => ?_,
    fun key q => ?_⟩ <;>
  · unfold searchWebWithTavily
    split <;> rfl

/-- **C9.** Supplying `system` as the empty string behaves exactly like
omitting it: the handler's full behaviour is identical, and the first
message of the assembled list is the fixed default system prompt. -/
theorem empty_system_override_spec :
    (∀ env model msg sOut lOut,
      handleChat env ⟨model, some "", msg⟩ sOut lOut =
        handleChat env ⟨model, none, msg⟩ sOut lOut)
    ∧ ∀ webInfo m, (buildMessages (some "") webInfo m).head? =
        some ⟨"system", defaultSystemPrompt⟩ := by
  constructor
  · intro env model msg sOut lOut
    rfl
  · intro webInfo m
    simp [buildMessages, jsTruthy, defaultSystemPrompt]

/-- **C10.** The two source variants implement the same pure core: their
`shouldUseWeb` functions agree on every input, and their Tavily result
formatting agrees on every provider response. -/
theorem variants_agree_spec :
    (∀ m : Option String, shouldUseWeb m = Variant.shouldUseWeb m)
    ∧ ∀ ans rs, searchFormat ans rs = Variant.searchFormat ans rs := by
  constructor
  · intro m
    cases m <;> rfl
  · intro ans rs
    rfl

/-- Mapping a function over the characters preserves infix occurrence. -/
theorem infix_map_lower {l₁ l₂ : List Char} (h : l₁ <:+: l₂) :
    l₁.map Char.toLower <:+: l₂.map Char.toLower := by
  obtain ⟨s, t, rfl⟩ := h
  exact ⟨s.map Char.toLower, t.map Char.toLower, by simp⟩

/-- A message containing `"weather today"` triggers the web search
(`"weather"` is a trigger and containment survives lower-casing). -/
theorem shouldUseWeb_of_weather_today {m : String}
    (h : strContains m "weather today" = true) :
    shouldUseWeb (some m) = true := by
  rw [shouldUseWeb_eq_any, List.any_eq_true]
  refine ⟨"weather", by decide, ?_⟩
  rw [strContains_iff] at h ⊢
  have h1 : ("weather".data : List Char) <:+: "weather today".data := by
    decide
  have h2 := infix_map_lower (h1.trans h)
  have h3 : ("weather".data : List Char).map Char.toLower = "weather".data :=
    by decide
  rw [h3] at h2
  simpa [lowerStr] using h2

/-- A message containing `"weather today"` is non-empty (truthy). -/
theorem jsTruthy_of_weather_today {m : String}
    (h : strContains m "weather today" = true) :
    jsTruthy (some m) = true := by
  by_cases hm : m = ""
  · subst hm; exact absurd h (by decide)
  · simp [jsTruthy, hm]

/-- **C2.** A valid chat request whose message contains `"weather today"`,
under a configured search credential, first issues the search call and
then the completion call (the trace order is the temporal order of the
sequential handler), and when the search yields non-empty context the
completion request's message list is exactly system, search-context
system, user. -/
theorem weather_today_pipeline (env : Env) (req : ChatRequest) (m : String)
    (lOut : LLMOutcome) (ans : Option String)
    (rs : Option (List SearchResult))
    (hg : jsTruthy env.groqKey = true) (ht : jsTruthy env.tavilyKey = true)
    (hm : jsTruthy req.model = true) (hmsg : req.message = some m)
    (hwt : strContains m "weather today" = true)
    (hctx : searchFormat ans rs ≠ "") :
    (handleChat env req (.ok ans rs) lOut).2 =
      [Event.searchCall m,
       Event.llmCall (req.model.getD "")
         (buildMessages req.system (searchFormat ans rs) m)]
    ∧ (buildMessages req.system (searchFormat ans rs) m).map
        PromptMessage.role = ["system", "system", "user"] := by
  have hsw : shouldUseWeb (some m) = true := shouldUseWeb_of_weather_today hwt
  have hne : jsTruthy (some m) = true := jsTruthy_of_weather_today hwt
  constructor
  · cases lOut <;>
      simp [handleChat, hg, hm, hne, hmsg, hsw, searchWebWithTavily, ht]
  · simp [buildMessages, hctx]

/-- Closed instance of `weather_today_pipeline` at a concrete request and
search response. -/
theorem weather_today_pipeline_witness :
    (handleChat ⟨some "gk", some "tk"⟩
        ⟨some "llama-3", none, some "What is the weather today?"⟩
        (.ok (some "A") (some [⟨"T1", "U1", "C1"⟩])) (.ok none)).2 =
      [Event.searchCall "What is the weather today?",
       Event.llmCall ((some "llama-3").getD "")
         (buildMessages none
           (searchFormat (some "A") (some [⟨"T1", "U1", "C1"⟩]))
           "What is the weather today?")]
    ∧ (buildMessages none
         (searchFormat (some "A") (some [⟨"T1", "U1", "C1"⟩]))
         "What is the weather today?").map PromptMessage.role
        = ["system", "system", "user"] :=
  weather_today_pipeline ⟨some "gk", some "tk"⟩
    ⟨some "llama-3", none, some "What is the weather today?"⟩
    "What is the weather today?" (.ok none) (some "A")
    (some [⟨"T1", "U1", "C1"⟩]) (by decide) (by decide) (by decide) rfl
    (by decide) (by decide)

/-- **C3.** A valid chat request whose message contains no trigger
substring issues no search call: the trace is the single completion call,
and its message list is exactly system then user. -/
theorem no_trigger_pipeline (env : Env) (req : ChatRequest) (m : String)
    (sOut : SearchOutcome) (lOut : LLMOutcome)
    (hg : jsTruthy env.groqKey = true) (hm : jsTruthy req.model = true)
    (hmsg : req.message = some m) (hne : m ≠ "")
    (htrig : ∀ t ∈ triggers, strContains (lowerStr m) t = false) :
    (handleChat env req sOut lOut).2 =
      [Event.llmCall (req.model.getD "") (buildMessages req.system "" m)]
    ∧ (buildMessages req.system "" m).map PromptMessage.role
        = ["system", "user"] := by
  have hsw : shouldUseWeb (some m) = false := by
    rw [shouldUseWeb_eq_any, List.any_eq_false]
    intro t htl
    simp [htrig t htl]
  have hne2 : jsTruthy (some m) = true := by simp [jsTruthy, hne]
  constructor
  · cases lOut <;>
      simp [handleChat, hg, hm, hmsg, hsw, hne2]
  · simp [buildMessages]

/-- Closed instance of `no_trigger_pipeline` at a concrete request. -/
theorem no_trigger_pipeline_witness :
    (handleChat ⟨some "gk", none⟩ ⟨some "m1", none, some "hello"⟩
        SearchOutcome.exn (.ok none)).2 =
      [Event.llmCall ((some "m1").getD "")
        (buildMessages none "" "hello")]
    ∧ (buildMessages none "" "hello").map PromptMessage.role
        = ["system", "user"] :=
  no_trigger_pipeline ⟨some "gk", none⟩ ⟨some "m1", none, some "hello"⟩
    "hello" SearchOutcome.exn (.ok none) (by decide) (by decide) rfl
    (by decide) (by decide)

/-- **C6.** When the completion provider responds with a non-success
status, a valid chat request is answered with HTTP 500 and the `details`
field carries the provider's raw error text. -/
theorem llm_error_500 (env : Env) (req : ChatRequest) (sOut : SearchOutcome)
    (errorText : String)
    (hg : jsTruthy env.groqKey = true) (hm : jsTruthy req.model = true)
    (hmsg : jsTruthy req.message = true) :
    (handleChat env req sOut (.httpError errorText)).1.status = 500
    ∧ (handleChat env req sOut (.httpError errorText)).1.details
        = some errorText := by
  constructor <;> simp [handleChat, hg, hm, hmsg]

/-- Closed instance of `llm_error_500` at a concrete request. -/
theorem llm_error_500_witness :
    (handleChat ⟨some "gk", none⟩ ⟨some "m1", none, some "hi"⟩
        SearchOutcome.exn (.httpError "boom")).1.status = 500
    ∧ (handleChat ⟨some "gk", none⟩ ⟨some "m1", none, some "hi"⟩
        SearchOutcome.exn (.httpError "boom")).1.details = some "boom" :=
  llm_error_500 ⟨some "gk", none⟩ ⟨some "m1", none, some "hi"⟩
    SearchOutcome.exn "boom" (by decide) (by decide) (by decide)

/-- **C7.** A chat request with a missing or empty `model` or `message`
makes no outbound call at all, and — whenever the LLM credential is
configured, so that the missing-key 500 does not pre-empt validation — is
answered with HTTP 400. -/
theorem invalid_input_400 (env : Env) (req : ChatRequest)
    (sOut : SearchOutcome) (lOut : LLMOutcome)
    (h : jsTruthy req.model = false ∨ jsTruthy req.message = false) :
    (jsTruthy env.groqKey = true →
      (handleChat env req sOut lOut).1.status = 400)
    ∧ (handleChat env req sOut lOut).2 = [] := by
  have hcond : (!jsTruthy req.model || !jsTruthy req.message) = true := by
    rcases h with h | h <;> simp [h]
  by_cases hg : jsTruthy env.groqKey = true
  · constructor
    · intro _
      simp [handleChat, hg, hcond]
    · simp [handleChat, hg, hcond]
  · have hg2 : jsTruthy env.groqKey = false := by
      cases hq : jsTruthy env.groqKey
      · rfl
      · exact absurd hq hg
    constructor
    · intro hg3
      exact absurd hg3 hg
    · simp [handleChat, hg2]

/-- Closed instance of `invalid_input_400` at a request with no message. -/
theorem invalid_input_400_witness :
    (jsTruthy (Env.mk (some "gk") none).groqKey = true →
      (handleChat ⟨some "gk", none⟩ ⟨some "m1", none, none⟩
        SearchOutcome.exn (.ok none)).1.status = 400)
    ∧ (handleChat ⟨some "gk", none⟩ ⟨some "m1", none, none⟩
        SearchOutcome.exn (.ok none)).2 = [] :=
  invalid_input_400 ⟨some "gk", none⟩ ⟨some "m1", none, none⟩
    SearchOutcome.exn (.ok none) (Or.inr rfl)

/-- **C8.** When the completion provider responds successfully but the
optional chaining `choices?.[0]?.message?.content` finds nothing, a valid
chat request is answered with HTTP 200 and the literal placeholder reply
`"No reply from model."`. -/
theorem placeholder_reply (env : Env) (req : ChatRequest)
    (sOut : SearchOutcome) (choices : Option (List Choice))
    (hg : jsTruthy env.groqKey = true) (hm : jsTruthy req.model = true)
    (hmsg : jsTruthy req.message = true)
    (hc : firstChoiceContent choices = none) :
    (handleChat env req sOut (.ok choices)).1.status = 200
    ∧ (handleChat env req sOut (.ok choices)).1.reply
        = some "No reply from model." := by
  constructor <;> simp [handleChat, hg, hm, hmsg, extractReply, hc]

/-- Closed instance of `placeholder_reply` with an empty `choices` list. -/
theorem placeholder_reply_witness :
    (handleChat ⟨some "gk", none⟩ ⟨some "m1", none, some "hi"⟩
        SearchOutcome.exn (.ok (some []))).1.status = 200
    ∧ (handleChat ⟨some "gk", none⟩ ⟨some "m1", none, some "hi"⟩
        SearchOutcome.exn (.ok (some []))).1.reply
        = some "No reply from model." :=
  placeholder_reply ⟨some "gk", none⟩ ⟨some "m1", none, some "hi"⟩
    SearchOutcome.exn (some []) (by decide) (by decide) (by decide) rfl
